import Mathlib

/-!
Verification of the gallery-dl glue logic in `insta.py`.

The embedding models the pure content of the helper functions
(`write_gallerydl_config`, `run_gallerydl`, `list_downloaded_media`,
`create_zip_buffer`, `is_video_file`) together with the filesystem
effects they perform.  The filesystem is a flat association of paths
to file contents plus a set of directories; the external `gallery-dl`
process is an oracle (part of the environment) mapping a command line
to an exit code, captured output streams and the set of files it
creates.  Python string hashing is likewise an abstract function in
the environment.
-/

/-- JSON values, restricted to the fragment used by the config file. -/
inductive Json where
  | str : String → Json
  | obj : List (String × Json) → Json

/-- Contents of a file on disk: either a structured JSON document
(written by the config writer) or opaque bytes (downloaded media). -/
inductive FileData where
  | jsonDoc : Json → FileData
  | bytes : String → FileData

/-- A flat model of the filesystem: regular files with their contents,
and the set of existing directories. -/
structure FS where
  files : List (String × FileData)
  dirs : List String

/-- `isUnder dir p` holds when path `p` lies strictly below directory `dir`. -/
def isUnder (dir p : String) : Bool :=
  (dir ++ "/").isPrefixOf p

/-- `Path.exists`: a path exists if it is a directory, a file, or an
ancestor of an existing directory or file. -/
def FS.existsPath (fs : FS) (p : String) : Bool :=
  fs.dirs.any (fun d => d == p || isUnder p d) ||
    fs.files.any (fun q => q.1 == p || isUnder p q.1)

/-- `shutil.rmtree`: remove the directory and everything below it. -/
def FS.rmtree (fs : FS) (p : String) : FS :=
  { files := fs.files.filter (fun q => !(q.1 == p || isUnder p q.1)),
    dirs := fs.dirs.filter (fun d => !(d == p || isUnder p d)) }

/-- `Path.mkdir(exist_ok=True)`: add the directory if absent. -/
def FS.mkdir (fs : FS) (p : String) : FS :=
  { fs with dirs := if fs.dirs.contains p then fs.dirs else p :: fs.dirs }

/-- `Path.write_text`: create or overwrite the file at `p`. -/
def FS.writeFile (fs : FS) (p : String) (d : FileData) : FS :=
  { fs with files := (p, d) :: fs.files.filter (fun q => !(q.1 == p)) }

/-- Read the contents of the file at `p`, if present. -/
def FS.read (fs : FS) (p : String) : Option FileData :=
  (fs.files.find? (fun q => q.1 == p)).map (·.2)

/-- Observable outcome of one `subprocess.run` of the external tool:
exit code, captured output streams, and the files the process wrote. -/
structure ProcOut where
  returncode : Int
  stdout : String
  stderr : String
  newFiles : List (String × FileData)

/-- Ambient environment of a run: Python string hashing, the
temporary-files root, and the behaviour of the external process. -/
structure Env where
  hash : String → Int
  tmpdir : String
  proc : List String → ProcOut

/-- The config document `config_data` built by `write_gallerydl_config`. -/
def configData (sessionid : String) : Json :=
  .obj [("extractor", .obj [("instagram", .obj [("cookies",
    .obj [("sessionid", .str sessionid)])])])]

/-- The shared config directory `gdl_instagram_configs` under the temp root. -/
def cfgDirOf (env : Env) : String :=
  env.tmpdir ++ "/gdl_instagram_configs"

/-- The per-credential config path, content-addressed by `hash(sessionid)`. -/
def cfgPathOf (env : Env) (sessionid : String) : String :=
  cfgDirOf env ++ "/" ++ toString (env.hash sessionid) ++ "_ig_config.json"

/-- `write_gallerydl_config`: create the config directory if absent and
write the JSON credential document; returns the path and the new state. -/
def write_gallerydl_config (env : Env) (sessionid : String) (fs : FS) :
    String × FS :=
  let fs1 := fs.mkdir (cfgDirOf env)
  let p := cfgPathOf env sessionid
  (p, fs1.writeFile p (.jsonDoc (configData sessionid)))

/-- The `ValueError` message raised for a tab outside the closed enum. -/
def invalidTabMsg : String :=
  "Invalid tab: must be one of [\x27posts\x27,\x27stories\x27,\x27reels\x27,\x27highlights\x27,\x27tagged\x27,\x27url\x27]"

/-- Step 2 of `run_gallerydl`: determine the target URL from the tab. -/
def targetUrl (identifier tab : String) : Except String String :=
  if tab == "posts" then
    .ok ("https://www.instagram.com/" ++ identifier ++ "/")
  else if tab == "stories" then
    .ok ("https://www.instagram.com/stories/" ++ identifier ++ "/")
  else if tab == "reels" then
    .ok ("https://www.instagram.com/" ++ identifier ++ "/reels/")
  else if tab == "tagged" then
    .ok ("https://www.instagram.com/" ++ identifier ++ "/tagged/")
  else if tab == "highlights" || tab == "url" then
    .ok identifier
  else
    .error invalidTabMsg

/-- Step 3 of `run_gallerydl`: the download directory, unique per
identifier and tab (hash-qualified for the URL-like tabs). -/
def downloadDirOf (env : Env) (identifier tab : String) : String :=
  if tab == "highlights" then
    env.tmpdir ++ "/ig_highlight_" ++ toString (env.hash identifier)
  else if tab == "url" then
    env.tmpdir ++ "/ig_url_" ++ toString (env.hash identifier)
  else
    env.tmpdir ++ "/ig_" ++ identifier ++ "_" ++ tab

/-- Step 4 of `run_gallerydl`: the external command line. -/
def gallerydlCmd (cfgPath downloadDir tab : String) (maxItems : Int)
    (target : String) : List String :=
  let base := ["gallery-dl", "--config", cfgPath,
    "--destination", downloadDir ++ "/", "--verbose"]
  let withRange :=
    if tab == "posts" || tab == "reels" || tab == "tagged" then
      base ++ ["--range", "0-" ++ toString maxItems]
    else
      base
  withRange ++ [target]

/-- Outcome of `run_gallerydl`: the returned directory, a `ValueError`,
or a `RuntimeError`. -/
inductive RunResult where
  | ok : String → RunResult
  | valueError : String → RunResult
  | runtimeError : String → RunResult
deriving DecidableEq

/-- `run_gallerydl`: write the config, resolve the target URL, wipe and
recreate the download directory, run the external tool, and either raise
on a nonzero exit or return the download directory. -/
def run_gallerydl (env : Env) (identifier tab sessionid : String)
    (maxItems : Int) (fs : FS) : RunResult × FS :=
  let (cfgPath, fs1) := write_gallerydl_config env sessionid fs
  match targetUrl identifier tab with
  | .error msg => (.valueError msg, fs1)
  | .ok target =>
    let downloadDir := downloadDirOf env identifier tab
    let fs2 := if fs1.existsPath downloadDir then fs1.rmtree downloadDir else fs1
    let fs3 := fs2.mkdir downloadDir
    let out := env.proc (gallerydlCmd cfgPath downloadDir tab maxItems target)
    let fs4 : FS := { fs3 with files := out.newFiles ++ fs3.files }
    if out.returncode != 0 then
      (.runtimeError ("Download failed (exit " ++ toString out.returncode
        ++ "):\n" ++ out.stderr), fs4)
    else
      (.ok downloadDir, fs4)

/-- `PurePath._parts_normcase` (case-sensitive flavour): the list of
path components, i.e. the path string split on the separator.  Sorting
`Path` objects compares these component lists lexicographically. -/
def pathParts (p : String) : List String :=
  p.splitOn "/"

/-- The order in which `sorted` ranks `Path` objects: lexicographic
comparison of the component lists. -/
def pathOrder (a b : String) : Prop :=
  pathParts a ≤ pathParts b

instance pathOrder_decidable : DecidableRel pathOrder :=
  fun a b => inferInstanceAs (Decidable (pathParts a ≤ pathParts b))

instance pathOrder_total : IsTotal String pathOrder :=
  ⟨fun a b => le_total (pathParts a) (pathParts b)⟩

instance pathOrder_trans : IsTrans String pathOrder :=
  ⟨fun _ _ _ hab hbc => le_trans hab hbc⟩

/-- `list_downloaded_media`: all regular files below the directory,
sorted by path (`sorted` on `Path` objects compares their component
lists lexicographically). -/
def list_downloaded_media (fs : FS) (downloadDir : String) : List String :=
  if fs.existsPath downloadDir then
    ((fs.files.filter (fun q => isUnder downloadDir q.1)).map (·.1)).insertionSort pathOrder
  else
    []

/-- `PurePath.name`: the final path component (the part after the last
slash; the paths listed from a download directory never end in a slash). -/
def pathName (p : String) : String :=
  String.mk ((p.toList.reverse.takeWhile (fun c => c != '/')).reverse)

/-- Index of the last occurrence of a dot (`str.rfind` over characters). -/
def rfindDot : List Char → Option Nat
  | [] => none
  | c :: rest =>
    match rfindDot rest with
    | some i => some (i + 1)
    | none => if c == '.' then some 0 else none

/-- `PurePath.suffix`: the extension of the final component, dot
included; empty for names with no interior dot or a trailing dot. -/
def pathSuffix (p : String) : String :=
  let cs := (pathName p).toList
  match rfindDot cs with
  | some i => if 0 < i ∧ i < cs.length - 1 then String.mk (cs.drop i) else ""
  | none => ""

/-- `str.lower` (character-wise lowercasing; the extensions involved
are ASCII). -/
def strLower (s : String) : String :=
  String.mk (s.toList.map Char.toLower)

/-- `is_video_file`: the lowercased extension is on the fixed allow-list. -/
def is_video_file (p : String) : Bool :=
  let ext := strLower (pathSuffix p)
  [".mp4", ".mov", ".gifv", ".webm", ".mkv", ".avi"].contains ext

/-- How the renderer treats one media item. -/
inductive MediaKind where
  | image : MediaKind
  | video : MediaKind
deriving DecidableEq

/-- `display_media_grid_from_paths` branches on `is_video_file` to pick
`st.video` versus `st.image`. -/
def classifyMedia (p : String) : MediaKind :=
  if is_video_file p then .video else .image

/-- Compression method of a ZIP archive. -/
inductive ZipCompression where
  | stored : ZipCompression
  | deflated : ZipCompression
deriving DecidableEq

/-- In-memory model of the archive built by `create_zip_buffer`: the
compression method and, per entry, its archive name and the contents
read from the source path. -/
structure ZipBuffer where
  compression : ZipCompression
  entries : List (String × Option FileData)

/-- `create_zip_buffer`: a deflate-compressed archive; each file is
stored under its base filename (`arcname=file_path.name`). -/
def create_zip_buffer (fs : FS) (filePaths : List String) : ZipBuffer :=
  { compression := .deflated,
    entries := filePaths.map (fun p => (pathName p, fs.read p)) }

/-- The `file_name` passed to `st.download_button` by each tab of the
app (posts, stories, reels, highlights, tagged, url). -/
def zipDownloadName (env : Env) (identifier tab : String) : String :=
  if tab == "posts" then identifier ++ "_posts_media.zip"
  else if tab == "stories" then identifier ++ "_stories_media.zip"
  else if tab == "reels" then identifier ++ "_reels_media.zip"
  else if tab == "tagged" then identifier ++ "_tagged_media.zip"
  else if tab == "highlights" then
    "highlight_" ++ toString (env.hash identifier) ++ "_media.zip"
  else if tab == "url" then
    "url_" ++ toString (env.hash identifier) ++ "_media.zip"
  else ""

/-- `clear_downloaded_folder`: delete the folder if present. -/
def clear_downloaded_folder (fs : FS) (downloadDir : String) : Bool × FS :=
  if fs.existsPath downloadDir then (true, fs.rmtree downloadDir)
  else (false, fs)

/-- `True` when `targetUrl` resolves without raising. -/
def resolvesOk (identifier tab : String) : Bool :=
  match targetUrl identifier tab with
  | .ok _ => true
  | .error _ => false

/-- The `ProcOut` observed by `run_gallerydl` for the given request:
the oracle applied to the command line the function builds. -/
def procOutOf (env : Env) (identifier tab sessionid : String)
    (maxItems : Int) (target : String) : ProcOut :=
  env.proc (gallerydlCmd (cfgPathOf env sessionid)
    (downloadDirOf env identifier tab) tab maxItems target)

/-- Empty filesystem. -/
def fsEmpty : FS := { files := [], dirs := [] }

/-- Environment whose hash is constantly `0` and whose external process
succeeds without downloading anything. -/
def envZero : Env :=
  { hash := fun _ => 0, tmpdir := "/tmp",
    proc := fun _ => { returncode := 0, stdout := "", stderr := "", newFiles := [] } }

/-- Environment whose external process fails with exit code 1 and the
diagnostic `rate limited` on stderr. -/
def envRateLimited : Env :=
  { hash := fun _ => 0, tmpdir := "/tmp",
    proc := fun _ => { returncode := 1, stdout := "", stderr := "rate limited", newFiles := [] } }

/-- Environment whose external process succeeds and writes one fresh
file into the posts download directory for user `bob`. -/
def envDownloads : Env :=
  { hash := fun _ => 0, tmpdir := "/tmp",
    proc := fun _ =>
      { returncode := 0, stdout := "", stderr := "",
        newFiles := [("/tmp/ig_bob_posts/new.jpg", .bytes "new")] } }

/-- A filesystem left over from a previous posts run for user `bob`. -/
def fsOldRun : FS :=
  { files := [("/tmp/ig_bob_posts/old.jpg", .bytes "old")],
    dirs := ["/tmp/ig_bob_posts"] }

/-- A download directory `d` holding `b.jpg`, `a.mp4` and `sub/c.png`. -/
def fsMediaDir : FS :=
  { files := [("d/b.jpg", .bytes ""), ("d/a.mp4", .bytes ""), ("d/sub/c.png", .bytes "")],
    dirs := ["d", "d/sub"] }

/-- Sanity check: the resolver builds the documented URL for reels. -/
theorem targetUrl_reels_example :
    targetUrl "natgeo" "reels" = .ok "https://www.instagram.com/natgeo/reels/" := by
  rfl

/-- C1: the range flag appears on the gallery-dl command line exactly
when the tab is posts, reels or tagged, and then its value is the
string `0-<max_items>`; for every other tab the command line is the
base command followed directly by the target URL. -/
theorem range_flag_iff_tab (cfgPath downloadDir tab : String) (maxItems : Int)
    (target : String) :
    (tab = "posts" ∨ tab = "reels" ∨ tab = "tagged" →
      gallerydlCmd cfgPath downloadDir tab maxItems target =
        ["gallery-dl", "--config", cfgPath, "--destination", downloadDir ++ "/",
         "--verbose", "--range", "0-" ++ toString maxItems, target]) ∧
    (¬(tab = "posts" ∨ tab = "reels" ∨ tab = "tagged") →
      gallerydlCmd cfgPath downloadDir tab maxItems target =
        ["gallery-dl", "--config", cfgPath, "--destination", downloadDir ++ "/",
         "--verbose", target]) := by
  constructor
  · rintro (rfl | rfl | rfl) <;> rfl
  · intro h
    push_neg at h
    obtain ⟨h1, h2, h3⟩ := h
    simp [gallerydlCmd, h1, h2, h3]

/-- C1 witness: concrete command lines for a range tab and a non-range tab. -/
theorem range_flag_iff_tab_witness :
    gallerydlCmd "/tmp/cfg.json" "/tmp/ig_bob_posts" "posts" 20
        "https://www.instagram.com/bob/"
      = ["gallery-dl", "--config", "/tmp/cfg.json", "--destination",
         "/tmp/ig_bob_posts" ++ "/", "--verbose", "--range",
         "0-" ++ toString (20 : Int), "https://www.instagram.com/bob/"] ∧
    gallerydlCmd "/tmp/cfg.json" "/tmp/ig_bob_stories" "stories" 20
        "https://www.instagram.com/stories/bob/"
      = ["gallery-dl", "--config", "/tmp/cfg.json", "--destination",
         "/tmp/ig_bob_stories" ++ "/", "--verbose",
         "https://www.instagram.com/stories/bob/"] :=
  ⟨(range_flag_iff_tab "/tmp/cfg.json" "/tmp/ig_bob_posts" "posts" 20
      "https://www.instagram.com/bob/").1 (Or.inl rfl),
   (range_flag_iff_tab "/tmp/cfg.json" "/tmp/ig_bob_stories" "stories" 20
      "https://www.instagram.com/stories/bob/").2 (by decide)⟩

/-- C2: target-URL resolution maps each tab to its fixed template, and
passes the identifier through unchanged for the highlights and url tabs. -/
theorem target_url_resolution (identifier : String) :
    targetUrl identifier "posts"
        = .ok ("https://www.instagram.com/" ++ identifier ++ "/") ∧
    targetUrl identifier "stories"
        = .ok ("https://www.instagram.com/stories/" ++ identifier ++ "/") ∧
    targetUrl identifier "reels"
        = .ok ("https://www.instagram.com/" ++ identifier ++ "/reels/") ∧
    targetUrl identifier "tagged"
        = .ok ("https://www.instagram.com/" ++ identifier ++ "/tagged/") ∧
    targetUrl identifier "highlights" = .ok identifier ∧
    targetUrl identifier "url" = .ok identifier :=
  ⟨rfl, rfl, rfl, rfl, rfl, rfl⟩

/-- C9: for a tab outside the closed enum, resolution yields the
invalid-argument error and `run_gallerydl` raises it as a `ValueError`;
over the enum itself resolution is total and never raises. -/
theorem invalid_tab_raises (env : Env) (identifier tab sessionid : String)
    (maxItems : Int) (fs : FS)
    (h : tab ∉ (["posts", "stories", "reels", "highlights", "tagged", "url"] : List String)) :
    targetUrl identifier tab = .error invalidTabMsg ∧
    (run_gallerydl env identifier tab sessionid maxItems fs).1 = .valueError invalidTabMsg ∧
    (["posts", "stories", "reels", "highlights", "tagged", "url"].all
      (resolvesOk identifier)) = true := by
  simp only [List.mem_cons, List.not_mem_nil, or_false, not_or] at h
  obtain ⟨h1, h2, h3, h4, h5, h6⟩ := h
  have hres : targetUrl identifier tab = .error invalidTabMsg := by
    simp [targetUrl, h1, h2, h3, h4, h5, h6]
  refine ⟨hres, ?_, rfl⟩
  simp [run_gallerydl, write_gallerydl_config, hres]

/-- C9 witness: the concrete tab `bogus` is rejected. -/
theorem invalid_tab_raises_witness :
    "bogus" ∉ (["posts", "stories", "reels", "highlights", "tagged", "url"] : List String) ∧
    (targetUrl "natgeo" "bogus" = .error invalidTabMsg ∧
      (run_gallerydl envZero "natgeo" "bogus" "sid" 20 fsEmpty).1 = .valueError invalidTabMsg ∧
      (["posts", "stories", "reels", "highlights", "tagged", "url"].all
        (resolvesOk "natgeo")) = true) :=
  ⟨by decide, invalid_tab_raises envZero "natgeo" "bogus" "sid" 20 fsEmpty (by decide)⟩

/-- C10: for a tab outside the enum, the error is raised only after the
config write: the result is the `ValueError`, the final filesystem state
is exactly the state after `write_gallerydl_config` (so no download
directory was created or wiped), and the credential config file is on
disk in that state. -/
theorem invalid_tab_after_config_write (env : Env) (identifier tab sessionid : String)
    (maxItems : Int) (fs : FS)
    (h : tab ∉ (["posts", "stories", "reels", "highlights", "tagged", "url"] : List String)) :
    (run_gallerydl env identifier tab sessionid maxItems fs).1 = .valueError invalidTabMsg ∧
    (run_gallerydl env identifier tab sessionid maxItems fs).2
      = (write_gallerydl_config env sessionid fs).2 ∧
    (run_gallerydl env identifier tab sessionid maxItems fs).2.read (cfgPathOf env sessionid)
      = some (.jsonDoc (configData sessionid)) := by
  simp only [List.mem_cons, List.not_mem_nil, or_false, not_or] at h
  obtain ⟨h1, h2, h3, h4, h5, h6⟩ := h
  have hres : targetUrl identifier tab = .error invalidTabMsg := by
    simp [targetUrl, h1, h2, h3, h4, h5, h6]
  refine ⟨?_, ?_, ?_⟩ <;>
    simp [run_gallerydl, write_gallerydl_config, hres, FS.read, FS.writeFile]

/-- C10 witness: the concrete tab `feed` is rejected after the config write. -/
theorem invalid_tab_after_config_write_witness :
    "feed" ∉ (["posts", "stories", "reels", "highlights", "tagged", "url"] : List String) ∧
    ((run_gallerydl envZero "natgeo" "feed" "sid" 20 fsEmpty).1 = .valueError invalidTabMsg ∧
      (run_gallerydl envZero "natgeo" "feed" "sid" 20 fsEmpty).2
        = (write_gallerydl_config envZero "sid" fsEmpty).2 ∧
      (run_gallerydl envZero "natgeo" "feed" "sid" 20 fsEmpty).2.read (cfgPathOf envZero "sid")
        = some (.jsonDoc (configData "sid"))) :=
  ⟨by decide, invalid_tab_after_config_write envZero "natgeo" "feed" "sid" 20 fsEmpty (by decide)⟩

/-- Reading back the file just written returns its contents. -/
theorem FS.read_writeFile (fs : FS) (p : String) (d : FileData) :
    (fs.writeFile p d).read p = some d := by
  simp [FS.read, FS.writeFile, List.find?_cons]

/-- C3: with a valid tab, `run_gallerydl` raises a `RuntimeError`
carrying the exit code and the captured stderr exactly when the
external process exits nonzero, and returns the download directory
(even if the process downloaded nothing) when it exits zero. -/
theorem run_exit_code_behavior (env : Env) (identifier tab sessionid target : String)
    (maxItems : Int) (fs : FS)
    (htab : targetUrl identifier tab = .ok target) :
    ((procOutOf env identifier tab sessionid maxItems target).returncode ≠ 0 →
      (run_gallerydl env identifier tab sessionid maxItems fs).1 =
        .runtimeError ("Download failed (exit "
          ++ toString (procOutOf env identifier tab sessionid maxItems target).returncode
          ++ "):\n" ++ (procOutOf env identifier tab sessionid maxItems target).stderr)) ∧
    ((procOutOf env identifier tab sessionid maxItems target).returncode = 0 →
      (run_gallerydl env identifier tab sessionid maxItems fs).1 =
        .ok (downloadDirOf env identifier tab)) := by
  unfold procOutOf
  constructor <;> intro h <;>
    simp [run_gallerydl, write_gallerydl_config, htab, h]

/-- C3 witness: exit 1 with stderr `rate limited` raises; exit 0 with an
empty download set still returns the download directory. -/
theorem run_exit_code_behavior_witness :
    targetUrl "natgeo" "posts" = .ok "https://www.instagram.com/natgeo/" ∧
    (run_gallerydl envRateLimited "natgeo" "posts" "sid" 20 fsEmpty).1 =
      .runtimeError "Download failed (exit 1):\nrate limited" ∧
    (run_gallerydl envZero "natgeo" "posts" "sid" 20 fsEmpty).1 =
      .ok "/tmp/ig_natgeo_posts" :=
  ⟨rfl,
   (run_exit_code_behavior envRateLimited "natgeo" "posts" "sid"
      "https://www.instagram.com/natgeo/" 20 fsEmpty rfl).1 (by decide),
   (run_exit_code_behavior envZero "natgeo" "posts" "sid"
      "https://www.instagram.com/natgeo/" 20 fsEmpty rfl).2 rfl⟩

/-- C4: the config path depends on the credential only through its
hash (so repeated calls with one credential yield one path), the file
written there is the JSON document
`extractor.instagram.cookies.sessionid = credential`, and writing twice
with the same credential leaves a single file at that path. -/
theorem write_config_deterministic_shape (env : Env) (s1 s2 : String) (fs : FS)
    (hh : env.hash s1 = env.hash s2) :
    (write_gallerydl_config env s1 fs).1 = (write_gallerydl_config env s2 fs).1 ∧
    (write_gallerydl_config env s1 fs).2.read ((write_gallerydl_config env s1 fs).1)
      = some (.jsonDoc (.obj [("extractor", .obj [("instagram", .obj [("cookies",
          .obj [("sessionid", .str s1)])])])])) ∧
    ((write_gallerydl_config env s1 ((write_gallerydl_config env s1 fs).2)).2.files.filter
        (fun q => q.1 == (write_gallerydl_config env s1 fs).1)).length = 1 := by
  refine ⟨?_, ?_, ?_⟩
  · simp [write_gallerydl_config, cfgPathOf, hh]
  · exact FS.read_writeFile _ _ _
  · simp [write_gallerydl_config, FS.writeFile, FS.mkdir, List.filter_filter]

/-- C4 witness: the conjunction at a concrete credential and environment. -/
theorem write_config_deterministic_shape_witness :
    envZero.hash "secret" = envZero.hash "secret" ∧
    ((write_gallerydl_config envZero "secret" fsEmpty).1
        = (write_gallerydl_config envZero "secret" fsEmpty).1 ∧
      (write_gallerydl_config envZero "secret" fsEmpty).2.read
          ((write_gallerydl_config envZero "secret" fsEmpty).1)
        = some (.jsonDoc (.obj [("extractor", .obj [("instagram", .obj [("cookies",
            .obj [("sessionid", .str "secret")])])])])) ∧
      ((write_gallerydl_config envZero "secret"
          ((write_gallerydl_config envZero "secret" fsEmpty).2)).2.files.filter
          (fun q => q.1 == (write_gallerydl_config envZero "secret" fsEmpty).1)).length = 1) :=
  ⟨rfl, write_config_deterministic_shape envZero "secret" "secret" fsEmpty rfl⟩

/-- After the rmtree filter, a second filter for paths below `d` finds
nothing. -/
theorem filter_isUnder_rmtree (l : List (String × FileData)) (d : String) :
    (l.filter (fun q => !(q.1 == d || isUnder d q.1))).filter
      (fun q => isUnder d q.1) = [] := by
  rw [List.filter_filter, List.filter_eq_nil_iff]
  intro a _
  by_cases hu : isUnder d a.1 <;> simp [hu]

/-- The files on disk after a `run_gallerydl` call with a valid tab:
the files written by the external process, in front of the files that
survive the conditional wipe of the download directory. -/
theorem run_gallerydl_files (env : Env) (identifier tab sessionid target : String)
    (maxItems : Int) (fs : FS)
    (htab : targetUrl identifier tab = .ok target) :
    (run_gallerydl env identifier tab sessionid maxItems fs).2.files =
      (procOutOf env identifier tab sessionid maxItems target).newFiles ++
        (if ((write_gallerydl_config env sessionid fs).2).existsPath
            (downloadDirOf env identifier tab) then
          ((write_gallerydl_config env sessionid fs).2).rmtree
            (downloadDirOf env identifier tab)
        else
          (write_gallerydl_config env sessionid fs).2).files := by
  simp only [run_gallerydl, write_gallerydl_config, htab, procOutOf]
  split <;> rfl

/-- C5: after a run with a valid tab, the files below the download
directory are exactly the files this run's external process wrote
there; nothing from a previous run at the same identifier+tab key
survives into the new result set. -/
theorem rerun_wipes_previous (env : Env) (identifier tab sessionid target : String)
    (maxItems : Int) (fs : FS)
    (htab : targetUrl identifier tab = .ok target) :
    (run_gallerydl env identifier tab sessionid maxItems fs).2.files.filter
        (fun q => isUnder (downloadDirOf env identifier tab) q.1)
      = (procOutOf env identifier tab sessionid maxItems target).newFiles.filter
          (fun q => isUnder (downloadDirOf env identifier tab) q.1) := by
  rw [run_gallerydl_files env identifier tab sessionid target maxItems fs htab,
    List.filter_append]
  rcases Bool.eq_false_or_eq_true
      (((write_gallerydl_config env sessionid fs).2).existsPath
        (downloadDirOf env identifier tab)) with hex | hex
  · rw [if_pos hex]
    rw [show (((write_gallerydl_config env sessionid fs).2).rmtree
          (downloadDirOf env identifier tab)).files =
        ((write_gallerydl_config env sessionid fs).2).files.filter
          (fun q => !(q.1 == downloadDirOf env identifier tab
            || isUnder (downloadDirOf env identifier tab) q.1)) from rfl]
    rw [filter_isUnder_rmtree, List.append_nil]
  · rw [if_neg (by simp [hex])]
    have hnone : ((write_gallerydl_config env sessionid fs).2).files.filter
        (fun q => isUnder (downloadDirOf env identifier tab) q.1) = [] := by
      rw [List.filter_eq_nil_iff]
      intro a ha hu
      have hany : ((write_gallerydl_config env sessionid fs).2).files.any
          (fun q => q.1 == downloadDirOf env identifier tab
            || isUnder (downloadDirOf env identifier tab) q.1) = false := by
        have hx := hex
        unfold FS.existsPath at hx
        exact (Bool.or_eq_false_iff.mp hx).2
      exact List.any_eq_false.mp hany a ha (by simp [hu])
    rw [hnone, List.append_nil]

/-- C5 witness: re-running posts for `bob` over a directory still
holding `old.jpg` leaves only this run's `new.jpg` in the result set. -/
theorem rerun_wipes_previous_witness :
    targetUrl "bob" "posts" = .ok "https://www.instagram.com/bob/" ∧
    (run_gallerydl envDownloads "bob" "posts" "sid" 5 fsOldRun).2.files.filter
        (fun q => isUnder (downloadDirOf envDownloads "bob" "posts") q.1)
      = (procOutOf envDownloads "bob" "posts" "sid" 5
          "https://www.instagram.com/bob/").newFiles.filter
          (fun q => isUnder (downloadDirOf envDownloads "bob" "posts") q.1) :=
  ⟨rfl, rerun_wipes_previous envDownloads "bob" "posts" "sid"
    "https://www.instagram.com/bob/" 5 fsOldRun rfl⟩

/-- C6: for an existing directory, `list_downloaded_media` is sorted in
path order (lexicographic over the path component lists, the order
`sorted` uses on `Path` objects) and is a permutation of — contains
exactly — the regular files recursively below the directory, with no
filtering. -/
theorem list_media_sorted_and_complete (fs : FS) (downloadDir : String)
    (h : fs.existsPath downloadDir = true) :
    List.Sorted pathOrder (list_downloaded_media fs downloadDir) ∧
    (list_downloaded_media fs downloadDir).Perm
      ((fs.files.filter (fun q => isUnder downloadDir q.1)).map (·.1)) := by
  unfold list_downloaded_media
  rw [if_pos h]
  exact ⟨List.sorted_insertionSort _ _, List.perm_insertionSort _ _⟩

/-- C6 witness: the directory `d` holding `b.jpg`, `a.mp4` and
`sub/c.png` yields a sorted permutation of exactly those three files. -/
theorem list_media_sorted_and_complete_witness :
    fsMediaDir.existsPath "d" = true ∧
    (List.Sorted pathOrder (list_downloaded_media fsMediaDir "d") ∧
      (list_downloaded_media fsMediaDir "d").Perm
        ((fsMediaDir.files.filter (fun q => isUnder "d" q.1)).map (·.1))) :=
  ⟨by decide, list_media_sorted_and_complete fsMediaDir "d" (by decide)⟩

/-- C7 counterexample: a `.m3u8` file is NOT classified as video by the
code — the allow-list in `is_video_file` lacks `.m3u8` — although the
extension is exactly `.m3u8` (already lowercase). -/
theorem m3u8_counterexample :
    strLower (pathSuffix "clip.m3u8") = ".m3u8" ∧
    is_video_file "clip.m3u8" = false ∧
    classifyMedia "clip.m3u8" = .image := by
  refine ⟨by decide, by decide, by decide⟩

/-- C7 (amended): the renderer classifies a path as video exactly when
its lowercased extension is one of `.mp4 .mov .gifv .webm .mkv .avi`
(no `.m3u8`), and as image otherwise. -/
theorem video_ext_classification (p : String) :
    (classifyMedia p = .video ↔
      strLower (pathSuffix p)
        ∈ ([".mp4", ".mov", ".gifv", ".webm", ".mkv", ".avi"] : List String)) ∧
    (classifyMedia p = .image ↔
      strLower (pathSuffix p)
        ∉ ([".mp4", ".mov", ".gifv", ".webm", ".mkv", ".avi"] : List String)) := by
  unfold classifyMedia is_video_file
  by_cases h : ([".mp4", ".mov", ".gifv", ".webm", ".mkv", ".avi"] : List String).contains
      (strLower (pathSuffix p)) = true
  · have hm := List.elem_iff.mp h
    simp [h, hm]
  · have hm : strLower (pathSuffix p)
        ∉ ([".mp4", ".mov", ".gifv", ".webm", ".mkv", ".avi"] : List String) :=
      fun hmem => h (List.elem_iff.mpr hmem)
    simp [h, hm]

/-- C8 counterexample: for the highlights tab the offered artifact name
is hash-qualified, not `<identifier>_<mode>_media.zip`. -/
theorem zip_name_counterexample :
    zipDownloadName envZero "natgeo" "highlights" = "highlight_0_media.zip" ∧
    zipDownloadName envZero "natgeo" "highlights" ≠ "natgeo_highlights_media.zip" := by
  refine ⟨by decide, by decide⟩

/-- C8 (amended): the bundle is a deflate-compressed archive storing
exactly the given files flat under their base filenames; the artifact is
named `<identifier>_<tab>_media.zip` for the posts, stories, reels and
tagged tabs, but `highlight_<hash(identifier)>_media.zip` for the
highlights tab and `url_<hash(identifier)>_media.zip` for the url tab. -/
theorem zip_bundle_and_names (fs : FS) (filePaths : List String) (env : Env)
    (identifier : String) :
    (create_zip_buffer fs filePaths).compression = .deflated ∧
    (create_zip_buffer fs filePaths).entries
      = filePaths.map (fun p => (pathName p, fs.read p)) ∧
    zipDownloadName env identifier "posts" = identifier ++ "_posts_media.zip" ∧
    zipDownloadName env identifier "stories" = identifier ++ "_stories_media.zip" ∧
    zipDownloadName env identifier "reels" = identifier ++ "_reels_media.zip" ∧
    zipDownloadName env identifier "tagged" = identifier ++ "_tagged_media.zip" ∧
    zipDownloadName env identifier "highlights"
      = "highlight_" ++ toString (env.hash identifier) ++ "_media.zip" ∧
    zipDownloadName env identifier "url"
      = "url_" ++ toString (env.hash identifier) ++ "_media.zip" :=
  ⟨rfl, rfl, rfl, rfl, rfl, rfl, rfl, rfl⟩
